import Mathlib

/-!
Verification of the worker-rs chunk-lifecycle and query-admission core.

The definitions below are a shallow embedding of the Rust sources:
  src/controller/worker.rs     (Worker: admission queue, run loop, execute_query)
  src/query/result.rs          (QueryOk::new, QueryError)
  src/transport/p2p.rs         (handle_pong, handle_query, process_query, send_query_result)
  src/storage/state_manager_.rs (UpdateManager::run)
Machine integers are modelled as Nat (no arithmetic in the claims overflows),
byte buffers as List Nat, and fallible code as Except.  Collaborator code that
is not part of the repository sources (the gzip codec from flate2, the sha3
hash, the sqn_query parser, StateManager::find_chunks from the absent
storage/manager.rs, and the transport-side error type from the absent
query/error.rs) is modelled from the spec, each with a doc comment saying so.
-/

deriving instance DecidableEq for Except

namespace WorkerRs

/-- Errors of a query, from src/query/result.rs (enum QueryError).  The
anyhow payload of `Other` is modelled by its display string. -/
inductive QueryError where
  | NotFound
  | NoAllocation
  | BadRequest (msg : String)
  | ServiceOverloaded
  | Other (msg : String)
  deriving DecidableEq, Repr

/-- Successful query result, from src/query/result.rs (struct QueryOk).
Byte buffers are lists of byte values. -/
structure QueryOk where
  raw_data : List Nat
  compressed_data : List Nat
  data_size : Nat
  compressed_size : Nat
  data_sha3_256 : List Nat
  num_read_chunks : Nat
  deriving DecidableEq, Repr

/-- Modelled from the spec: gzip compression at the default level (the flate2
GzEncoder used by QueryOk::new is an external crate).  The spec constrains it
only through the round-trip law `gunzip(compressed_data) == raw_data`; the
byte format is abstracted to the two-byte gzip magic header followed by the
payload, which satisfies that law. -/
def gzip (data : List Nat) : List Nat :=
  31 :: 139 :: data

/-- Inverse of the modelled `gzip`: strips the two-byte header. -/
def gunzip (data : List Nat) : List Nat :=
  data.drop 2

/-- Modelled from the spec: the sha3_256 digest from util::hash (absent from
the sources).  The claims constrain it only as a function of its input, so any
total executable digest function is a faithful model. -/
def sha3_256 (data : List Nat) : List Nat :=
  [data.foldl (fun a b => (a * 31 + b) % 256) 7, data.length % 256]

/-- Shallow embedding of QueryOk::new (src/query/result.rs, lines 19-40):
gzip-compress the data, record both sizes, hash the raw data.  The modelled
codec is total, so the io::Result wrapper of the original is dropped. -/
def QueryOk.new (data : List Nat) (num_read_chunks : Nat) : QueryOk :=
  let compressed_data := gzip data
  { raw_data := data
    compressed_data := compressed_data
    data_size := data.length
    compressed_size := compressed_data.length
    data_sha3_256 := sha3_256 data
    num_read_chunks := num_read_chunks }

/-- Modelled from the spec: the parsed JSON query description produced by
sqn_query::Query::from_json_bytes (external crate).  The only field the
worker core reads is the optional `first_block`. -/
structure ParsedQuery where
  first_block : Option Nat
  deriving DecidableEq, Repr

/-- A filesystem path of a leased chunk, as yielded by the lease guard. -/
abbrev ChunkPath := String

/-- Outcome of Worker::execute_query together with the chunk paths the
compiled plan was actually executed against (for stating which chunks the
executor touched). -/
structure ExecOutcome where
  result : Except QueryError QueryOk
  executedPaths : List ChunkPath
  deriving DecidableEq, Repr

/-- Shallow embedding of Worker::execute_query (src/controller/worker.rs,
lines 146-177).  `parsed` is the result of sqn_query::Query::from_json_bytes
(`none` on parse failure); `chunks` is the sequence of chunk paths held by the
lease guard returned by StateManager::find_chunks, which is modelled from the
spec (storage/manager.rs is absent from the sources) as returning a
possibly-empty guard and no error; `exec` is plan.execute composed with the
JsonArrayWriter, yielding the serialized bytes for one chunk path or an error
(converted to QueryError::Other by the `?` operator).  The code takes only
`chunks_guard.iter().next()` and calls QueryOk::new(bytes, 1). -/
def execute_query (parsed : Option ParsedQuery) (chunks : List ChunkPath)
    (exec : ChunkPath → Except String (List Nat)) : ExecOutcome :=
  match parsed with
  | none => ⟨Except.error (QueryError.BadRequest "Couldn\x27t parse query"), []⟩
  | some q =>
    match q.first_block with
    | none => ⟨Except.error (QueryError.BadRequest "Query without first_block"), []⟩
    | some _ =>
      match chunks with
      | [] => ⟨Except.error QueryError.NotFound, []⟩
      | path :: _ =>
        match exec path with
        | Except.error e => ⟨Except.error (QueryError.Other e), [path]⟩
        | Except.ok bytes => ⟨Except.ok (QueryOk.new bytes 1), [path]⟩

/-- State of the worker query pipeline: `queued` queries sitting in the
bounded mpsc channel created in Worker::new, and `running` closures currently
being executed by for_each_concurrent in Worker::run. -/
structure WorkerState where
  queued : Nat
  running : Nat
  deriving DecidableEq, Repr

/-- What Worker::schedule_query reports to its caller: the task was placed in
the channel (Some future returned), or try_send failed with TrySendError::Full
(None returned). -/
inductive ScheduleOutcome where
  | enqueued
  | rejected
  deriving DecidableEq, Repr

/-- Shallow embedding of Worker::schedule_query (src/controller/worker.rs,
lines 80-108): try_send into the bounded query channel of capacity
`queuedBound` (the QUEUED_QUERIES knob).  A full channel rejects the query and
leaves the state unchanged; otherwise the task is enqueued.  (The
TrySendError::Closed arm panics and is unreachable while the worker runs.) -/
def schedule_query (queuedBound : Nat) (s : WorkerState) :
    ScheduleOutcome × WorkerState :=
  if s.queued < queuedBound then
    (ScheduleOutcome.enqueued, { s with queued := s.queued + 1 })
  else
    (ScheduleOutcome.rejected, s)

/-- One step of the worker query pipeline (src/controller/worker.rs):
a query arrives through schedule_query (accepted or rejected), or the
for_each_concurrent loop in Worker::run begins a queued task while fewer than
`parallelBound` (the PARALLEL_QUERIES knob) tasks run, or a running task
finishes. -/
inductive WorkerStep (parallelBound queuedBound : Nat) :
    WorkerState → WorkerState → Prop where
  | arrive (s : WorkerState) (h : s.queued < queuedBound) :
      WorkerStep parallelBound queuedBound s { s with queued := s.queued + 1 }
  | reject (s : WorkerState) (h : ¬ s.queued < queuedBound) :
      WorkerStep parallelBound queuedBound s s
  | begin_task (s : WorkerState) (hq : 0 < s.queued) (hr : s.running < parallelBound) :
      WorkerStep parallelBound queuedBound s ⟨s.queued - 1, s.running + 1⟩
  | finish_task (s : WorkerState) (h : 0 < s.running) :
      WorkerStep parallelBound queuedBound s { s with running := s.running - 1 }

/-- States of the worker pipeline reachable from the initial empty state. -/
inductive Reachable (parallelBound queuedBound : Nat) : WorkerState → Prop where
  | init : Reachable parallelBound queuedBound ⟨0, 0⟩
  | step {s t : WorkerState} : Reachable parallelBound queuedBound s →
      WorkerStep parallelBound queuedBound s t → Reachable parallelBound queuedBound t

/-- Result of reading one of the lazy_static environment knobs in
src/controller/worker.rs, lines 22-29: parse failure panics via expect. -/
inductive KnobValue where
  | value (n : Nat)
  | panicked (msg : String)
  deriving DecidableEq, Repr

/-- std::env::var(name).map(parse).unwrap_or(fallback) with expect on a value
that does not parse, as in the lazy_static block of src/controller/worker.rs. -/
def lookupKnob (env : Option String) (fallback : Nat) (panicMsg : String) :
    KnobValue :=
  match env with
  | some s =>
    match s.toNat? with
    | some n => KnobValue.value n
    | none => KnobValue.panicked panicMsg
  | none => KnobValue.value fallback

/-- The PARALLEL_QUERIES knob (src/controller/worker.rs, lines 23-25):
`env` is the value of the PARALLEL_QUERIES environment variable. -/
def parallel_queries (env : Option String) : KnobValue :=
  lookupKnob env 3 "Invalid PARALLEL_QUERIES"

/-- The QUEUED_QUERIES knob (src/controller/worker.rs, lines 26-28). -/
def queued_queries (env : Option String) : KnobValue :=
  lookupKnob env 15 "Invalid QUEUED_QUERIES"

/-- What awaiting the one-shot result channel produces for the async caller. -/
inductive AwaitOutcome where
  | result (r : Except QueryError QueryOk)
  | panicked (msg : String)
  deriving DecidableEq, Repr

/-- Shallow embedding of `resp_rx.await.expect("Query processor didn\x27t
produce a result")` in Worker::schedule_query (src/controller/worker.rs,
lines 103-107) and P2PTransport::process_query (src/transport/p2p.rs, lines
280-283).  `received` is what the one-shot channel yields: `some r` when the
CPU-pool task sent result r, `none` when the sender was dropped without
sending. -/
def await_query_result (received : Option (Except QueryError QueryOk)) :
    AwaitOutcome :=
  match received with
  | some r => AwaitOutcome.result r
  | none => AwaitOutcome.panicked "Query processor didn\x27t produce a result"

/-- A libp2p peer identity, modelled by its base58 string form. -/
abbrev PeerId := String

/-- Modelled from the spec: the `Ranges` assignment payload carried by an
Active pong (subsquid_messages is an external crate).  A list of dataset URLs
with their assigned block ranges. -/
abbrev Ranges := List (String × List (Nat × Nat))

/-- The status field of a Pong message (subsquid_messages::pong::Status), as
matched exhaustively in P2PTransport::handle_pong.  The Active payload is the
assignment; only its `datasets` field is read, so the variant carries the
Ranges directly. -/
inductive PongStatus where
  | notRegistered
  | unsupportedVersion
  | jailedV1
  | jailed (reason : String)
  | active (datasets : Ranges)
  deriving DecidableEq, Repr

/-- Observable effects of P2PTransport::handle_pong: whether the
wrong-origin warning fired, and the assignment forwarded to the assignments
channel (none when the status is not Active). -/
structure PongEffects where
  warnedWrongOrigin : Bool
  forwardedAssignment : Option Ranges
  deriving DecidableEq, Repr

/-- Shallow embedding of P2PTransport::handle_pong (src/transport/p2p.rs,
lines 169-196).  A sender other than the configured scheduler only triggers a
warning (there is no early return); the subsequent match forwards the
assignment of an Active status to the assignments channel unconditionally.
The non-Active arms only log. -/
def handle_pong (scheduler_id peer_id : PeerId) (status : Option PongStatus) :
    PongEffects :=
  { warnedWrongOrigin := peer_id != scheduler_id
    forwardedAssignment :=
      match status with
      | some (PongStatus.active datasets) => some datasets
      | _ => none }

/-- Modelled from the spec: the transport-side query error type
(src/query/error.rs is absent from the sources).  Its variants are exactly
the arms matched exhaustively in P2PTransport::send_query_result and
P2PTransport::generate_log: NotFound, NoAllocation, BadRequest and Other;
the anyhow payload of Other is modelled by its display string. -/
inductive TransportQueryError where
  | NotFound
  | NoAllocation
  | BadRequest (msg : String)
  | Other (msg : String)
  deriving DecidableEq, Repr

/-- Display (to_string) of a transport query error; the NotFound and
NoAllocation strings are the thiserror messages of src/query/result.rs, and
Other displays its anyhow payload. -/
def TransportQueryError.display : TransportQueryError → String
  | TransportQueryError.NotFound =>
      "This worker doesn\x27t have any chunks in requested range"
  | TransportQueryError.NoAllocation =>
      "This worker doesn\x27t have enough CU allocated"
  | TransportQueryError.BadRequest m => "Bad request: " ++ m
  | TransportQueryError.Other m => m

/-- The wire-level query_result::Result variants constructed by
P2PTransport::send_query_result (subsquid_messages::query_result). -/
inductive WireQueryResult where
  | ok (data : List Nat)
  | badRequest (msg : String)
  | noAllocation
  | serverError (msg : String)
  deriving DecidableEq, Repr

/-- Shallow embedding of the result-to-wire mapping in
P2PTransport::send_query_result (src/transport/p2p.rs, lines 285-315):
Ok carries the compressed data; NotFound is sent as BadRequest with its
display string; NoAllocation keeps its own wire variant; BadRequest keeps its
message; Other is sent as ServerError with its display string. -/
def send_query_result (result : Except TransportQueryError QueryOk) :
    WireQueryResult :=
  match result with
  | Except.ok r => WireQueryResult.ok r.compressed_data
  | Except.error TransportQueryError.NotFound =>
      WireQueryResult.badRequest TransportQueryError.NotFound.display
  | Except.error TransportQueryError.NoAllocation => WireQueryResult.noAllocation
  | Except.error (TransportQueryError.BadRequest m) => WireQueryResult.badRequest m
  | Except.error (TransportQueryError.Other m) => WireQueryResult.serverError m

/-- Outcome of the admission portion of P2PTransport::process_query. -/
inductive ProcessAdmission where
  | sent
  | errored (e : TransportQueryError)
  | panicked (msg : String)
  deriving DecidableEq, Repr

/-- Shallow embedding of the admission portion of P2PTransport::process_query
(src/transport/p2p.rs, lines 255-279): missing dataset or query fields, JSON
parse of the query string, then try_send into the bounded service queue.  A
full queue raises anyhow("Service overloaded"), which the `?` operator
converts into the Other variant of the query error; a closed queue panics.
The serde parse error display is abstracted to a fixed string. -/
def process_query_admission (hasFields : Bool) (parseOk : Bool)
    (queueFull : Bool) (queueClosed : Bool) : ProcessAdmission :=
  if hasFields then
    if parseOk then
      if queueFull then
        ProcessAdmission.errored (TransportQueryError.Other "Service overloaded")
      else if queueClosed then
        ProcessAdmission.panicked "Query subscriber dropped"
      else
        ProcessAdmission.sent
    else
      ProcessAdmission.errored (TransportQueryError.Other "serde_json error")
  else
    ProcessAdmission.errored
      (TransportQueryError.Other "Some fields are missing in proto message")

/-- The status returned by the allocations checker
(gateway_allocations::Status). -/
inductive AllocStatus where
  | Spent
  | NotEnoughCU
  deriving DecidableEq, Repr

/-- Outcome of one query task processed by the worker run loop. -/
inductive TaskOutcome where
  | result (r : Except TransportQueryError QueryOk)
  | panicked (msg : String)
  deriving DecidableEq, Repr

/-- Shallow embedding of the per-task body of Worker::run
(src/controller/worker.rs, lines 125-136): the allocation check gates
execution.  Spent runs execute_query and yields its result; NotEnoughCU
yields Err(NoAllocation) without executing; a checker failure panics.
`execResult` is what execute_query would return for this task. -/
def run_query_task (alloc : Except String AllocStatus)
    (execResult : Except TransportQueryError QueryOk) : TaskOutcome :=
  match alloc with
  | Except.ok AllocStatus.Spent => TaskOutcome.result execResult
  | Except.ok AllocStatus.NotEnoughCU =>
      TaskOutcome.result (Except.error TransportQueryError.NoAllocation)
  | Except.error e =>
      TaskOutcome.panicked ("Couldn\x27t check CU allocations: " ++ e)

/-- Observable effects of the tail of P2PTransport::handle_query: what was
sent on the wire, and whether a query-executed log was generated and saved. -/
structure HandleQueryEffects where
  sent : WireQueryResult
  savedLog : Bool
  deriving DecidableEq, Repr

/-- Shallow embedding of P2PTransport::handle_query, post-processing part
(src/transport/p2p.rs, lines 236-253): a log is generated and saved unless
the result is Err(NoAllocation); the result is always sent on the wire via
send_query_result. -/
def handle_query_effects (result : Except TransportQueryError QueryOk) :
    HandleQueryEffects :=
  { sent := send_query_result result
    savedLog :=
      match result with
      | Except.error TransportQueryError.NoAllocation => false
      | _ => true }

/-- Identifier of an in-flight download (storage/state_.rs: type DownloadId = u64). -/
abbrev DownloadId := Nat

/-- Modelled from the spec: ChunkRef identity (types/state.rs is absent from
the sources); identity is (dataset_url, first_block, last_block, top_block?). -/
structure ChunkRef where
  dataset_url : String
  first_block : Nat
  last_block : Nat
  top_block : Option Nat
  deriving DecidableEq, Repr

/-- An action dispatched by one wakeup of the reconciler control loop. -/
inductive ReconcilerAction where
  | cancelDownload (id : DownloadId)
  | deleteChunk (c : ChunkRef)
  | startDownload (c : ChunkRef)
  deriving DecidableEq, Repr

/-- The dispatch stage of a reconciler action within one wakeup of
UpdateManager::run: cancellations are stage 0, deletions stage 1, new
downloads stage 2. -/
def ReconcilerAction.stage : ReconcilerAction → Nat
  | ReconcilerAction.cancelDownload _ => 0
  | ReconcilerAction.deleteChunk _ => 1
  | ReconcilerAction.startDownload _ => 2

/-- Shallow embedding of one wakeup of UpdateManager::run
(src/storage/state_manager_.rs, lines 19-40): after `notify` fires, the loop
first cancels every download in take_canceled_downloads, then dispatches the
deletions of take_deletions, and only then, if the downloader is ready, lets
take_next_download issue at most one new download.  The inputs are the values
those state calls yield on this wakeup; the output is the dispatched actions
in program order. -/
def update_manager_wakeup (canceledDownloads : List DownloadId)
    (deletions : List ChunkRef) (downloaderReady : Bool)
    (nextDownload : Option ChunkRef) : List ReconcilerAction :=
  canceledDownloads.map ReconcilerAction.cancelDownload ++
    deletions.map ReconcilerAction.deleteChunk ++
    (if downloaderReady then
      (nextDownload.map ReconcilerAction.startDownload).toList
    else [])

/-! Theorems settling the claims. -/

/-- Claim C4: for every QueryOk produced by QueryOk.new, gunzip of
compressed_data equals raw_data, data_sha3_256 equals sha3_256 of raw_data,
data_size equals the length of raw_data, and compressed_size equals the
length of compressed_data. -/
theorem queryOk_new_roundtrip (data : List Nat) (n : Nat) :
    gunzip (QueryOk.new data n).compressed_data = (QueryOk.new data n).raw_data ∧
    (QueryOk.new data n).data_sha3_256 = sha3_256 (QueryOk.new data n).raw_data ∧
    (QueryOk.new data n).data_size = (QueryOk.new data n).raw_data.length ∧
    (QueryOk.new data n).compressed_size =
      (QueryOk.new data n).compressed_data.length :=
  ⟨rfl, rfl, rfl, rfl⟩

/-- Claim C6 (counterexample): with the PARALLEL_QUERIES environment variable
unset, the admission limit is not 5. -/
theorem parallel_queries_default_cex :
    parallel_queries none ≠ KnobValue.value 5 := by
  decide

/-- Claim C6 (amended): when the PARALLEL_QUERIES environment variable is not
set, the concurrency limit used by the core defaults to 3. -/
theorem parallel_queries_default_is_3 :
    parallel_queries none = KnobValue.value 3 :=
  rfl

/-- Claim C5 (counterexample): when the one-shot channel yields nothing (the
CPU-pool task disappeared without sending), the awaiting caller does not
obtain the error Other("Query processor didn\x27t produce a result"). -/
theorem await_query_result_cex :
    await_query_result none ≠
      AwaitOutcome.result
        (Except.error (QueryError.Other "Query processor didn\x27t produce a result")) := by
  decide

/-- Claim C5 (amended): if the CPU-pool task disappears without sending on
the one-shot result channel, the awaiting caller panics via expect with
message "Query processor didn\x27t produce a result"; it does not return any
result to its caller. -/
theorem await_query_result_dropped_panics :
    await_query_result none =
      AwaitOutcome.panicked "Query processor didn\x27t produce a result" ∧
    ∀ r, await_query_result none ≠ AwaitOutcome.result r := by
  refine ⟨rfl, ?_⟩
  intro r h
  simp [await_query_result] at h

/-- Claim C9: for every Pong carrying Status::Active, handle_pong forwards
the contained assignment to the assignments channel regardless of whether the
sender equals the configured scheduler id; the forwarded assignment is
independent of the sender, a mismatched origin only sets the warning. -/
theorem handle_pong_active_applies (scheduler_id peer_id : PeerId)
    (datasets : Ranges) :
    (handle_pong scheduler_id peer_id
        (some (PongStatus.active datasets))).forwardedAssignment = some datasets ∧
    (∀ status : Option PongStatus,
      (handle_pong scheduler_id peer_id status).forwardedAssignment =
        (handle_pong scheduler_id scheduler_id status).forwardedAssignment) ∧
    (handle_pong scheduler_id peer_id
        (some (PongStatus.active datasets))).warnedWrongOrigin =
      (peer_id != scheduler_id) :=
  ⟨rfl, fun _ => rfl, rfl⟩

/-- Claim C10: send_query_result maps NotFound to the BadRequest wire variant
(with its display string) and Other to the ServerError wire variant; every
error lands in one of the badRequest, noAllocation or serverError wire
variants (there is no dedicated not-found or service-overloaded variant); and
a full internal queue, which process_query turns into Other("Service
overloaded"), reaches the client as ServerError. -/
theorem send_query_result_mapping :
    send_query_result (Except.error TransportQueryError.NotFound) =
      WireQueryResult.badRequest
        "This worker doesn\x27t have any chunks in requested range" ∧
    (∀ m, send_query_result (Except.error (TransportQueryError.Other m)) =
      WireQueryResult.serverError m) ∧
    (∀ e : TransportQueryError,
      (∃ m, send_query_result (Except.error e) = WireQueryResult.badRequest m) ∨
        send_query_result (Except.error e) = WireQueryResult.noAllocation ∨
        ∃ m, send_query_result (Except.error e) = WireQueryResult.serverError m) ∧
    process_query_admission true true true false =
      ProcessAdmission.errored (TransportQueryError.Other "Service overloaded") ∧
    send_query_result
        (Except.error (TransportQueryError.Other "Service overloaded")) =
      WireQueryResult.serverError "Service overloaded" := by
  refine ⟨rfl, fun _ => rfl, ?_, rfl, rfl⟩
  intro e
  cases e with
  | NotFound => exact Or.inl ⟨_, rfl⟩
  | NoAllocation => exact Or.inr (Or.inl rfl)
  | BadRequest m => exact Or.inl ⟨m, rfl⟩
  | Other m => exact Or.inr (Or.inr ⟨m, rfl⟩)

/-- Claim C7: for every query denied by the allocation checker, the task
result is Err(NoAllocation); handle_query then sends the NoAllocation wire
variant to the caller and neither generates nor saves a query-executed log. -/
theorem noAllocation_no_log (execResult : Except TransportQueryError QueryOk)
    (r : Except TransportQueryError QueryOk)
    (h : run_query_task (Except.ok AllocStatus.NotEnoughCU) execResult =
      TaskOutcome.result r) :
    (handle_query_effects r).sent = WireQueryResult.noAllocation ∧
    (handle_query_effects r).savedLog = false := by
  have hr : r = Except.error TransportQueryError.NoAllocation := by
    simp [run_query_task] at h
    exact h.symm
  subst hr
  exact ⟨rfl, rfl⟩

/-- Witness for noAllocation_no_log at a concrete denied query. -/
theorem noAllocation_no_log_witness :
    (handle_query_effects
        (Except.error TransportQueryError.NoAllocation)).sent =
      WireQueryResult.noAllocation ∧
    (handle_query_effects
        (Except.error TransportQueryError.NoAllocation)).savedLog = false :=
  noAllocation_no_log (Except.ok (QueryOk.new [] 0))
    (Except.error TransportQueryError.NoAllocation) rfl

/-- Claim C1 (counterexample): with the default knobs (PARALLEL_QUERIES = 3,
QUEUED_QUERIES = 15), the state with 3 queries in flight and an empty queue is
reachable, and a query arriving there is enqueued by schedule_query — the
queue length advances and admission does not fail, contradicting immediate
ServiceOverloaded rejection and the absence of an internal waiting queue. -/
theorem worker_admission_cex :
    Reachable 3 15 ⟨0, 3⟩ ∧
    schedule_query 15 ⟨0, 3⟩ = (ScheduleOutcome.enqueued, ⟨1, 3⟩) ∧
    ScheduleOutcome.enqueued ≠ ScheduleOutcome.rejected := by
  refine ⟨?_, by decide, by decide⟩
  exact Reachable.step (Reachable.step (Reachable.step (Reachable.step
    (Reachable.step (Reachable.step Reachable.init
      (WorkerStep.arrive ⟨0, 0⟩ (by decide)))
      (WorkerStep.begin_task ⟨1, 0⟩ (by decide) (by decide)))
      (WorkerStep.arrive ⟨0, 1⟩ (by decide)))
      (WorkerStep.begin_task ⟨1, 1⟩ (by decide) (by decide)))
      (WorkerStep.arrive ⟨0, 2⟩ (by decide)))
      (WorkerStep.begin_task ⟨1, 2⟩ (by decide) (by decide))

/-- Claim C1 (amended): admission goes through a bounded internal queue of
capacity QUEUED_QUERIES, not a compared-and-incremented counter.  In every
reachable state of the pipeline, at most PARALLEL_QUERIES queries execute
concurrently and at most QUEUED_QUERIES wait in the queue, and schedule_query
rejects a query (returns None, surfaced to the caller as overload) exactly
when the queue is full. -/
theorem worker_bounded_concurrency (parallelBound queuedBound : Nat)
    (s : WorkerState) (h : Reachable parallelBound queuedBound s) :
    s.running ≤ parallelBound ∧ s.queued ≤ queuedBound ∧
    ((schedule_query queuedBound s).1 = ScheduleOutcome.rejected ↔
      s.queued = queuedBound) := by
  have hinv : s.running ≤ parallelBound ∧ s.queued ≤ queuedBound := by
    induction h with
    | init => exact ⟨Nat.zero_le _, Nat.zero_le _⟩
    | step _ hs ih =>
      cases hs with
      | arrive h => exact ⟨ih.1, h⟩
      | reject h => exact ih
      | begin_task hq hr => exact ⟨hr, Nat.le_trans (Nat.sub_le _ _) ih.2⟩
      | finish_task h => exact ⟨Nat.le_trans (Nat.sub_le _ _) ih.1, ih.2⟩
  refine ⟨hinv.1, hinv.2, ?_⟩
  have h2 := hinv.2
  by_cases hq : s.queued < queuedBound
  · simp [schedule_query, hq]
    omega
  · simp [schedule_query, hq]
    omega

/-- Witness for worker_bounded_concurrency at a reachable state with one
query executing. -/
theorem worker_bounded_concurrency_witness :
    (⟨0, 1⟩ : WorkerState).running ≤ 3 ∧
    (⟨0, 1⟩ : WorkerState).queued ≤ 15 ∧
    ((schedule_query 15 ⟨0, 1⟩).1 = ScheduleOutcome.rejected ↔
      (⟨0, 1⟩ : WorkerState).queued = 15) :=
  worker_bounded_concurrency 3 15 ⟨0, 1⟩
    (Reachable.step (Reachable.step Reachable.init
      (WorkerStep.arrive ⟨0, 0⟩ (by decide)))
      (WorkerStep.begin_task ⟨1, 0⟩ (by decide) (by decide)))

/-- Claim C2 (counterexample): for a lease guard covering the two chunk paths
"a" and "b", execute_query runs the plan only against "a" — the result is
oblivious to the second path (here the executor would even fail on "b") and
reports num_read_chunks = 1, not 2. -/
theorem execute_query_all_chunks_cex :
    (execute_query (some ⟨some 0⟩) ["a", "b"]
        (fun p => if p = "a" then Except.ok [1] else Except.error "boom")).executedPaths =
      ["a"] ∧
    (execute_query (some ⟨some 0⟩) ["a", "b"]
        (fun p => if p = "a" then Except.ok [1] else Except.error "boom")).result =
      Except.ok (QueryOk.new [1] 1) ∧
    (QueryOk.new [1] 1).num_read_chunks ≠ 2 ∧
    (["a"] : List ChunkPath) ≠ ["a", "b"] := by
  refine ⟨by decide, by decide, by decide, by decide⟩

/-- Claim C2 (amended): for every admitted query whose lease guard covers
n ≥ 1 chunks, execute_query runs the compiled plan against only the first
leased chunk path, and whenever it returns a QueryOk its num_read_chunks
equals 1 regardless of n. -/
theorem execute_query_first_chunk_only (fb : Nat) (chunks : List ChunkPath)
    (exec : ChunkPath → Except String (List Nat)) (h : chunks ≠ []) :
    (execute_query (some ⟨some fb⟩) chunks exec).executedPaths = chunks.take 1 ∧
    ∀ r, (execute_query (some ⟨some fb⟩) chunks exec).result = Except.ok r →
      r.num_read_chunks = 1 := by
  match chunks with
  | [] => exact absurd rfl h
  | p :: ps =>
    rcases hexec : exec p with e | bytes
    · constructor
      · simp [execute_query, hexec]
      · intro r hr
        simp [execute_query, hexec] at hr
    · constructor
      · simp [execute_query, hexec]
      · intro r hr
        simp [execute_query, hexec] at hr
        subst hr
        rfl

/-- Witness for execute_query_first_chunk_only on a two-chunk guard. -/
theorem execute_query_first_chunk_only_witness :
    (execute_query (some ⟨some 0⟩) ["a", "b"]
        (fun _ => Except.ok [])).executedPaths =
      (["a", "b"] : List ChunkPath).take 1 ∧
    ∀ r, (execute_query (some ⟨some 0⟩) ["a", "b"]
        (fun _ => Except.ok [])).result = Except.ok r →
      r.num_read_chunks = 1 :=
  execute_query_first_chunk_only 0 ["a", "b"] (fun _ => Except.ok [])
    (by decide)

/-- Claim C3: execute_query returns BadRequest exactly when the query bytes
fail to parse or the parsed query lacks first_block; once parsing succeeded
and first_block is present, it returns NotFound exactly when the chunk lookup
yielded no chunk; and in all these error cases the plan is executed against
no chunk path at all. -/
theorem execute_query_error_cases (parsed : Option ParsedQuery)
    (chunks : List ChunkPath) (exec : ChunkPath → Except String (List Nat)) :
    ((∃ m, (execute_query parsed chunks exec).result =
        Except.error (QueryError.BadRequest m)) ↔
      (parsed = none ∨ ∃ q, parsed = some q ∧ q.first_block = none)) ∧
    (∀ q fb, parsed = some q → q.first_block = some fb →
      ((execute_query parsed chunks exec).result =
          Except.error QueryError.NotFound ↔ chunks = [])) ∧
    (∀ m, (execute_query parsed chunks exec).result =
        Except.error (QueryError.BadRequest m) →
      (execute_query parsed chunks exec).executedPaths = []) ∧
    ((execute_query parsed chunks exec).result =
        Except.error QueryError.NotFound →
      (execute_query parsed chunks exec).executedPaths = []) := by
  rcases parsed with _ | ⟨_ | fb⟩
  · refine ⟨?_, ?_, ?_, ?_⟩
    · simp [execute_query]
    · intro q fb hq
      exact absurd hq (by simp)
    · intro m _
      rfl
    · intro hne
      rfl
  · refine ⟨?_, ?_, ?_, ?_⟩
    · simp [execute_query]
    · intro q fb hq hfb
      rw [Option.some_inj] at hq
      subst hq
      exact absurd hfb (by simp)
    · intro m _
      rfl
    · intro hne
      simp [execute_query] at hne
  · match chunks with
    | [] =>
      refine ⟨?_, ?_, ?_, ?_⟩
      · simp [execute_query]
      · intro q fb hq hfb
        simp [execute_query]
      · intro m hm
        simp [execute_query] at hm
      · intro hne
        rfl
    | p :: ps =>
      rcases hexec : exec p with e | bytes
      · refine ⟨?_, ?_, ?_, ?_⟩
        · simp [execute_query, hexec]
        · intro q fb hq hfb
          simp [execute_query, hexec]
        · intro m hm
          simp [execute_query, hexec] at hm
        · intro hne
          simp [execute_query, hexec] at hne
      · refine ⟨?_, ?_, ?_, ?_⟩
        · simp [execute_query, hexec]
        · intro q fb hq hfb
          simp [execute_query, hexec]
        · intro m hm
          simp [execute_query, hexec] at hm
        · intro hne
          simp [execute_query, hexec] at hne

/-- Witness for execute_query_error_cases on a well-formed query whose chunk
lookup comes back empty: the result is NotFound. -/
theorem execute_query_error_cases_witness :
    (execute_query (some ⟨some 5⟩) [] (fun _ => Except.ok [])).result =
      Except.error QueryError.NotFound :=
  ((execute_query_error_cases (some ⟨some 5⟩) [] (fun _ => Except.ok [])).2.1
    ⟨some 5⟩ 5 rfl rfl).mpr rfl

/-- Helper for the reconciler ordering: the action found at position k of one
wakeup of UpdateManager::run has the stage determined by k alone — the first
canceledDownloads.length positions hold cancellations (stage 0), the next
deletions.length positions hold deletions (stage 1), and every later position
holds a new download (stage 2). -/
theorem update_manager_wakeup_stage_at (canceledDownloads : List DownloadId)
    (deletions : List ChunkRef) (downloaderReady : Bool)
    (nextDownload : Option ChunkRef) (k : Nat) (z : ReconcilerAction)
    (hk : (update_manager_wakeup canceledDownloads deletions downloaderReady
      nextDownload)[k]? = some z) :
    z.stage = if k < canceledDownloads.length then 0
      else if k < canceledDownloads.length + deletions.length then 1 else 2 := by
  unfold update_manager_wakeup at hk
  by_cases h1 : k < canceledDownloads.length
  · rw [List.append_assoc,
      List.getElem?_append_left (by simpa using h1)] at hk
    obtain ⟨c, _, rfl⟩ := List.mem_map.mp (List.getElem?_mem hk)
    simp [ReconcilerAction.stage, h1]
  · by_cases h2 : k < canceledDownloads.length + deletions.length
    · have hlt : k < (canceledDownloads.map ReconcilerAction.cancelDownload ++
          deletions.map ReconcilerAction.deleteChunk).length := by
        simp
        omega
      rw [List.getElem?_append_left hlt,
        List.getElem?_append_right (by simpa using Nat.le_of_not_lt h1)] at hk
      obtain ⟨c, _, rfl⟩ := List.mem_map.mp (List.getElem?_mem hk)
      simp [ReconcilerAction.stage, h1, h2]
    · have hge : (canceledDownloads.map ReconcilerAction.cancelDownload ++
          deletions.map ReconcilerAction.deleteChunk).length ≤ k := by
        simp
        omega
      rw [List.getElem?_append_right hge] at hk
      have hz := List.getElem?_mem hk
      rcases downloaderReady with _ | _
      · simp at hz
      · rcases nextDownload with _ | c
        · simp at hz
        · simp at hz
          subst hz
          simp [ReconcilerAction.stage, h1, h2]

/-- Claim C8: on every wakeup of the reconciler control loop, the pending
actions are dispatched in the order cancellations first, then deletions, then
new downloads: in the dispatched action list, any action of a strictly
earlier stage (cancellation = 0, deletion = 1, new download = 2) sits at a
strictly smaller position than any action of a later stage.  In particular
every cancellation precedes every deletion, and no new download is issued
before all cancellations and deletions of the wakeup. -/
theorem update_manager_ordering (canceledDownloads : List DownloadId)
    (deletions : List ChunkRef) (downloaderReady : Bool)
    (nextDownload : Option ChunkRef) (i j : Nat) (x y : ReconcilerAction)
    (hi : (update_manager_wakeup canceledDownloads deletions downloaderReady
      nextDownload)[i]? = some x)
    (hj : (update_manager_wakeup canceledDownloads deletions downloaderReady
      nextDownload)[j]? = some y)
    (hxy : x.stage < y.stage) :
    i < j := by
  have hx := update_manager_wakeup_stage_at canceledDownloads deletions
    downloaderReady nextDownload i x hi
  have hy := update_manager_wakeup_stage_at canceledDownloads deletions
    downloaderReady nextDownload j y hj
  rw [hx, hy] at hxy
  split_ifs at hxy <;> omega

/-- Witness for update_manager_ordering on a wakeup with one cancellation,
one deletion and one new download: the cancellation (position 0) precedes the
deletion (position 1), which precedes the new download (position 2). -/
theorem update_manager_ordering_witness :
    (update_manager_wakeup [7] [⟨"d", 0, 1, none⟩] true
        (some ⟨"d", 2, 3, none⟩))[0]? =
      some (ReconcilerAction.cancelDownload 7) ∧
    (update_manager_wakeup [7] [⟨"d", 0, 1, none⟩] true
        (some ⟨"d", 2, 3, none⟩))[1]? =
      some (ReconcilerAction.deleteChunk ⟨"d", 0, 1, none⟩) ∧
    (update_manager_wakeup [7] [⟨"d", 0, 1, none⟩] true
        (some ⟨"d", 2, 3, none⟩))[2]? =
      some (ReconcilerAction.startDownload ⟨"d", 2, 3, none⟩) ∧
    (0 : Nat) < 1 ∧ (1 : Nat) < 2 := by
  refine ⟨by decide, by decide, by decide, ?_, ?_⟩
  · exact update_manager_ordering [7] [⟨"d", 0, 1, none⟩] true
      (some ⟨"d", 2, 3, none⟩) 0 1 (ReconcilerAction.cancelDownload 7)
      (ReconcilerAction.deleteChunk ⟨"d", 0, 1, none⟩)
      (by decide) (by decide) (by decide)
  · exact update_manager_ordering [7] [⟨"d", 0, 1, none⟩] true
      (some ⟨"d", 2, 3, none⟩) 1 2
      (ReconcilerAction.deleteChunk ⟨"d", 0, 1, none⟩)
      (ReconcilerAction.startDownload ⟨"d", 2, 3, none⟩)
      (by decide) (by decide) (by decide)

end WorkerRs
